import Mathlib

/-!
Verification development for the AI Trip Planner repository
(modelling `backend/main.py`, `backend/security_config.py` and `app.py`).

Modelling conventions:

* Wall-clock time is modelled in whole minutes as a natural number.
  `datetime.now()` becomes a parameter `now : Nat`; `now.date()` becomes
  `dateOf now` (`now / 1440`); `now.replace(minute=0, second=0,
  microsecond=0)` becomes `hourStart now` (`now - now % 60`).  Comparisons
  such as `t > now - timedelta(hours=1)` are rendered subtraction-free as
  `now < t + 60`, which is equivalent over the integers and avoids
  truncated natural subtraction.  The epoch (minute 0) is placed at a
  Monday midnight, so `weekday d = d % 7` matches Python's
  `date.weekday()` (Monday = 0) up to the choice of epoch.

* Monetary amounts (Python floats, in USD) are modelled as natural
  numbers of cents.  Every amount appearing in the source is an integer
  multiple of one cent (costs are accumulated in steps of 5.00 in the
  backend and 0.03 in the app), so the cent model is the idealised exact
  arithmetic of the source; the float comparisons of the source agree
  with it at every state considered here.

* Python dictionaries keyed by client / trip id are modelled either as an
  `Option` record for the single client under consideration or as a
  function `String → Option _` for the job registry.
-/

namespace TripPlanner

/-- Calendar day of a timestamp given in minutes (`datetime.date()`). -/
def dateOf (t : Nat) : Nat := t / 1440

/-- Start of the calendar hour containing `t`
(`now.replace(minute=0, second=0, microsecond=0)`). -/
def hourStart (t : Nat) : Nat := t - t % 60

namespace Backend

/-- Constant `MAX_TRIPS_PER_HOUR = 10` from `backend/security_config.py`. -/
def MAX_TRIPS_PER_HOUR : Nat := 10

/-- Constant `MAX_TRIPS_PER_DAY = 50` from `backend/security_config.py`. -/
def MAX_TRIPS_PER_DAY : Nat := 50

/-- Constant `DAILY_COST_CAP_USD = 1000.0` from `backend/security_config.py`,
in cents. -/
def DAILY_COST_CAP_USD : Nat := 100000

/-- Constant `ESTIMATED_COST_PER_TRIP = 5.0` from `backend/security_config.py`,
in cents. -/
def ESTIMATED_COST_PER_TRIP : Nat := 500

/-- One entry of the backend's `usage_tracking` dictionary
(`backend/main.py`, initialised at lines 240-247): per-client counters for
the calendar-day and calendar-hour windows plus the accumulated daily cost. -/
structure Usage where
  trips_today : Nat
  trips_this_hour : Nat
  daily_cost : Nat
  last_trip_time : Option Nat
  hour_start : Nat
deriving DecidableEq

/-- Fresh record inserted when a client id is first seen
(`backend/main.py` lines 240-247, 359-366, 398-405). -/
def initUsage (now : Nat) : Usage :=
  { trips_today := 0
    trips_this_hour := 0
    daily_cost := 0
    last_trip_time := none
    hour_start := hourStart now }

/-- Hourly-counter reset performed at the top of `check_rate_limits`
(`backend/main.py` lines 251-254): if the stored hour anchor is strictly
before the current hour, zero `trips_this_hour` and advance the anchor. -/
def hourlyRollover (u : Usage) (now : Nat) : Usage :=
  if u.hour_start < hourStart now then
    { u with trips_this_hour := 0, hour_start := hourStart now }
  else u

/-- Daily-counter reset used by `update_usage` and `get_usage`
(`backend/main.py` lines 370-373 and 409-412): if the last recorded trip
was on an earlier calendar day, zero `trips_today` and `daily_cost`.
Note that `check_rate_limits` does NOT perform this reset. -/
def dailyRollover (u : Usage) (now : Nat) : Usage :=
  match u.last_trip_time with
  | some t => if dateOf t < dateOf now then { u with trips_today := 0, daily_cost := 0 } else u
  | none => u

/-- Rendered rejection message of `backend/main.py` line 258. -/
def hourlyLimitMsg : String := "Rate limit exceeded: Maximum 10 trips per hour"

/-- Rendered rejection message of `backend/main.py` line 262. -/
def dailyLimitMsg : String := "Daily limit exceeded: Maximum 50 trips per day"

/-- Rendered rejection message of `backend/main.py` line 266. -/
def costCapMsg : String := "Daily cost cap exceeded: $1000.00 limit reached"

/-- Model of `check_rate_limits` (`backend/main.py` lines 234-268) for one
client.  The input is the client's current `usage_tracking` entry (or
`none` if the client is unseen); the output is the (possibly
hour-rolled-over) entry left in the dictionary together with the returned
pair `(can_create, message)`.  The function resets only the hourly
counter, then checks the hourly cap, the daily cap and the daily cost cap
in that order; there is no weekly cap. -/
def check_rate_limits (u0 : Option Usage) (now : Nat) :
    Usage × Bool × Option String :=
  let u := hourlyRollover (u0.getD (initUsage now)) now
  if MAX_TRIPS_PER_HOUR ≤ u.trips_this_hour then (u, false, some hourlyLimitMsg)
  else if MAX_TRIPS_PER_DAY ≤ u.trips_today then (u, false, some dailyLimitMsg)
  else if DAILY_COST_CAP_USD < u.daily_cost + ESTIMATED_COST_PER_TRIP then
    (u, false, some costCapMsg)
  else (u, true, none)

/-- Model of `update_usage` (`backend/main.py` lines 354-378): reset the
daily counters if the last trip was on an earlier calendar day, then
increment both trip counters, add the estimated cost, and stamp the trip
time. -/
def update_usage (u0 : Option Usage) (now : Nat) : Usage :=
  let u := dailyRollover (u0.getD (initUsage now)) now
  { u with trips_today := u.trips_today + 1
           trips_this_hour := u.trips_this_hour + 1
           daily_cost := u.daily_cost + ESTIMATED_COST_PER_TRIP
           last_trip_time := some now }

/-- Counter state shown by the `GET /api/usage/{client_id}` endpoint
(`backend/main.py` lines 392-416) just before it re-runs
`check_rate_limits`: both the daily reset and the hourly reset are
applied here. -/
def get_usage_record (u0 : Option Usage) (now : Nat) : Usage :=
  hourlyRollover (dailyRollover (u0.getD (initUsage now)) now) now

/-- One submission as performed by `create_trip` (`backend/main.py` lines
894-935): run `check_rate_limits`; on rejection return HTTP 429 without
recording; on admission record the trip with `update_usage`.  Returns the
updated ledger entry and whether the submission was admitted. -/
def submit (u0 : Option Usage) (now : Nat) : Option Usage × Bool :=
  let r := check_rate_limits u0 now
  if r.2.1 then (some (update_usage (some r.1) now), true) else (some r.1, false)

/-- Number of submissions admitted when one client submits at each time in
`times` in order, starting from an unseen ledger entry. -/
def countAdmitted (times : List Nat) : Nat :=
  (times.foldl
    (fun (acc : Option Usage × Nat) t =>
      let r := submit acc.1 t
      (r.1, acc.2 + if r.2 then 1 else 0))
    (none, 0)).2

/-- Like `countAdmitted`, but starting from a given ledger entry: the
number of submissions admitted when one client submits at each time in
`times` in order.  Under asyncio's cooperative scheduling, `create_trip`
performs no `await` between `check_rate_limits` (`backend/main.py` line
898) and `update_usage` (line 935), and no other thread mutates
`usage_tracking` (the crew thread writes only the progress and result
stores), so K concurrent submissions from the same client identity
execute their check-and-record blocks in some serial order: a batch of K
concurrent submissions is this fold over K copies of the shared
submission time. -/
def countAdmittedFrom (u0 : Option Usage) : List Nat → Nat
  | [] => 0
  | t :: ts =>
    let r := submit u0 t
    (if r.2 then 1 else 0) + countAdmittedFrom r.1 ts

/-- A concrete submission schedule spanning five days within one week:
for each of days 0-4, ten submissions at minute 0 and ten at minute 60 of
the day, followed by one more submission at the start of day 5
(101 submissions in all, every one within the trailing week of the
last). -/
def cxWeekTimes : List Nat :=
  ((List.range 5).map (fun d =>
    ((List.range 2).map (fun h =>
      List.replicate 10 (d * 1440 + h * 60))).flatten)).flatten ++ [7200]

end Backend

namespace App

/-- Constant `MAX_TRIPS_PER_HOUR = 5` from `app.py` line 154. -/
def MAX_TRIPS_PER_HOUR : Nat := 5

/-- Constant `MAX_TRIPS_PER_DAY = 50` from `app.py` line 155. -/
def MAX_TRIPS_PER_DAY : Nat := 50

/-- Constant `MAX_TRIPS_PER_WEEK = 100` from `app.py` line 156. -/
def MAX_TRIPS_PER_WEEK : Nat := 100

/-- Constant `WEEKLY_COST_CAP_USD = 10.0` from `app.py` line 157, in cents. -/
def WEEKLY_COST_CAP_USD : Nat := 1000

/-- Constant `ESTIMATED_COST_PER_TRIP = 0.03` from `app.py` line 158, in cents. -/
def ESTIMATED_COST_PER_TRIP : Nat := 3

/-- Weekday of a day number, with the epoch chosen so that day 0 is a
Monday (`date.weekday()`, Monday = 0). -/
def weekday (d : Nat) : Nat := d % 7

/-- Start of the ISO week containing `t`
(`current_time.date() - timedelta(days=current_time.weekday())`,
`app.py` line 226), as a day number. -/
def weekStartOf (t : Nat) : Nat := dateOf t - weekday (dateOf t)

/-- The session's `rate_limit_data` (`app.py` lines 216-221): recorded
trip timestamps, accumulated weekly cost, and the stored week anchor. -/
structure RateData where
  trips : List Nat
  weekly_cost : Nat
  week_start : Nat
deriving DecidableEq

/-- Weekly reset of `check_rate_limit` (`app.py` lines 229-233): if the
stored week anchor differs from the current week start, clear the trips
and the weekly cost and advance the anchor. -/
def weeklyReset (rd : RateData) (now : Nat) : RateData :=
  if rd.week_start ≠ weekStartOf now then
    { trips := [], weekly_cost := 0, week_start := weekStartOf now }
  else rd

/-- Pruning step of `check_rate_limit` (`app.py` lines 236-237): drop
trips older than one week (keep `t` with `t > now - 1 week`, rendered as
`now < t + 10080` minutes). -/
def pruneWeek (rd : RateData) (now : Nat) : RateData :=
  { rd with trips := rd.trips.filter (fun t => now < t + 10080) }

/-- Rendered rejection message of `app.py` line 243. -/
def hourlyLimitMsg : String :=
  "Rate limit exceeded: Maximum 5 trips per hour. Please try again later."

/-- Rendered rejection message of `app.py` line 248. -/
def dailyLimitMsg : String :=
  "Daily limit exceeded: Maximum 50 trips per day. Please try again tomorrow."

/-- Rendered rejection message of `app.py` line 253. -/
def weeklyLimitMsg : String :=
  "Weekly limit exceeded: Maximum 100 trips per week. Resets on Monday."

/-- Rendered rejection message of `app.py` line 258. -/
def weeklyCostMsg : String :=
  "Weekly cost cap reached ($10.00). Service will resume next Monday."

/-- Model of `check_rate_limit` (`app.py` lines 209-260): weekly reset,
week pruning, then the hourly (rolling trailing hour), daily (calendar
day), weekly (count of recorded trips) and weekly-cost caps, in that
order, rejecting with the first exceeded cap's message. -/
def check_rate_limit (rd0 : RateData) (now : Nat) :
    RateData × Bool × Option String :=
  let rd := pruneWeek (weeklyReset rd0 now) now
  if MAX_TRIPS_PER_HOUR ≤ (rd.trips.filter (fun t => now < t + 60)).length then
    (rd, false, some hourlyLimitMsg)
  else if MAX_TRIPS_PER_DAY ≤ (rd.trips.filter (fun t => dateOf t = dateOf now)).length then
    (rd, false, some dailyLimitMsg)
  else if MAX_TRIPS_PER_WEEK ≤ rd.trips.length then
    (rd, false, some weeklyLimitMsg)
  else if WEEKLY_COST_CAP_USD < rd.weekly_cost + ESTIMATED_COST_PER_TRIP then
    (rd, false, some weeklyCostMsg)
  else (rd, true, none)

end App


namespace Jobs

/-!
Model of the per-trip progress record `trip_progress[trip_id]` and of the
sequence of writes performed on it by `create_trip` and `run_crew_async`
(`backend/main.py`).  `run_crew_async` is an asyncio coroutine: between
two `await` points its writes are atomic with respect to every other
coroutine (the HTTP handlers and SSE generators), so the observable
history of a job is the sequence of record states after each atomic block
of writes.  Only the fields relevant to the claims are modelled; the
extra keys of the dictionary (`current_step`, `debug`, ...) are written
in the same atomic blocks and do not affect the claims.

The monitor loop of `run_crew_async` (lines 684-756) writes
`"progress": min(95, base_progress + task_progress)` where
`base_progress + task_progress ≥ 0` is computed with floating-point
estimates of elapsed time; a tick is therefore modelled as an arbitrary
value capped at 95, which is exactly the guarantee the source provides
(the float expression itself is not modelled).
-/

/-- The modelled fields of one `trip_progress` entry. -/
structure ProgressRec where
  status : String
  current_agent : Option String
  progress : Nat
  message : String
deriving DecidableEq

/-- Record written by `create_trip` (`backend/main.py` lines 906-920). -/
def initialProgress : ProgressRec :=
  { status := "running"
    current_agent := none
    progress := 0
    message := "Initializing trip planning..." }

/-- Record after the first explicit update of `run_crew_async`
(lines 631-643): research phase start, progress 10. -/
def researchStartRec : ProgressRec :=
  { status := "running"
    current_agent := some "trip_researcher"
    progress := 10
    message := "Starting research agent..." }

/-- Record after the second explicit update of `run_crew_async`
(lines 646-658): research phase working, progress 15. -/
def researchWorkRec : ProgressRec :=
  { status := "running"
    current_agent := some "trip_researcher"
    progress := 15
    message := "Researching destination and gathering information..." }

/-- One write of the monitor loop of `run_crew_async` (lines 738-753):
agent id and message as selected by the loop, progress capped at 95. -/
structure Tick where
  agent : String
  value : Nat
  msg : String
deriving DecidableEq

/-- Record written for one monitor tick: the loop never changes `status`
and always writes `min 95 _` as the progress value. -/
def tickRec (tk : Tick) : ProgressRec :=
  { status := "running"
    current_agent := some tk.agent
    progress := min 95 tk.value
    message := tk.msg }

/-- Record written after the crew thread finishes successfully
(lines 771-783): planning completion phase, progress 90. -/
def finalizeRec : ProgressRec :=
  { status := "running"
    current_agent := some "trip_planner"
    progress := 90
    message := "Processing final itinerary..." }

/-- Terminal update on success (lines 835-854): status `completed`,
progress pinned to 100.  In the same atomic block the HTML result is
stored into `trip_results` (line 831). -/
def applyComplete (r : ProgressRec) : ProgressRec :=
  { r with status := "completed"
           current_agent := none
           progress := 100
           message := "Trip planning completed successfully!" }

/-- Terminal update on error (lines 865-869): status `error`, the error
text stored in `message`, and progress set to 0.  The other keys
(including `current_agent`) are left as they were. -/
def applyError (emsg : String) (r : ProgressRec) : ProgressRec :=
  { r with status := "error"
           message := "Error: " ++ emsg
           progress := 0 }

/-- A job state as observable by the HTTP endpoints: the
`trip_progress[trip_id]` record together with the `trip_results[trip_id]`
entry (if any). -/
abbrev JobState := ProgressRec × Option String

/-- The ordered list of records written while the job is running, for a
run whose monitor loop fires the given ticks: the `create_trip` initial
record, the two explicit research updates, the monitor ticks, and the
pre-completion update. -/
def runningWrites (ticks : List Tick) : List ProgressRec :=
  initialProgress :: researchStartRec :: researchWorkRec ::
    (ticks.map tickRec ++ [finalizeRec])

/-- Observable history of a job that completes successfully with result
`html`: all running writes with no stored result, then the terminal
atomic block that stores the result and marks the job `completed`. -/
def successTrace (ticks : List Tick) (html : String) : List JobState :=
  (runningWrites ticks).map (fun r => (r, none)) ++
    [(applyComplete finalizeRec, some html)]

/-- Observable history of a job that fails: the exception can strike
after any prefix of the running writes (`k + 1` of them are performed;
the `create_trip` write always happens), after which the `except` block
of `run_crew_async` overwrites status, message and progress.  No result
is ever stored on this path. -/
def errorTrace (ticks : List Tick) (k : Nat) (emsg : String) : List JobState :=
  let pre := (runningWrites ticks).take (k + 1)
  pre.map (fun r => (r, none)) ++
    [(applyError emsg (pre.getLastD initialProgress), none)]

/-- Boolean check that a list of progress percentages is non-decreasing. -/
def nondecr : List Nat → Bool
  | [] => true
  | [_] => true
  | a :: b :: t => Nat.ble a b && nondecr (b :: t)

end Jobs

namespace SSE

/-!
Model of the SSE generator of `stream_progress` (`backend/main.py` lines
954-999).  The generator is a cooperatively scheduled loop that reads
`trip_progress` once per iteration; it is modelled against a fixed
registry `store : String → Option ProgressRec` (the claim under study
concerns a job id that is never present).  The loop is given fuel: the
returned boolean is `true` when the generator terminated (reached a
`break`) and `false` when the fuel ran out with the loop still live.
-/

/-- Loop-carried state of the generator: the copied `last_progress`
record, `last_agent`, and `consecutive_same_updates`. -/
structure GenState where
  lastP : Option Jobs.ProgressRec
  lastAgent : Option String
  sameCount : Nat

/-- One emitted SSE event.  `connected` is the initial handshake message
(line 963), `errEvent` the `{"error": "Trip not found"}` payload
(line 967), `snapshot` a JSON dump of the progress record (lines 983,
990, 996). -/
inductive Event
  | connected (tid : String)
  | errEvent
  | snapshot (r : Jobs.ProgressRec)
deriving DecidableEq

/-- The `progress_changed` expression (lines 975-979).  In the source,
`last_progress` holds a full copy of the progress dictionary but its
first disjunct compares that dictionary against the integer
`current_progress.get("progress")`; a dict (or `None`) never equals an
integer in Python, so the disjunct — and hence the whole expression — is
always true. -/
def progressChanged (_st : GenState) (_cur : Jobs.ProgressRec) : Bool :=
  true

/-- Whether an event is the unknown-job error event. -/
def Event.isErr : Event → Bool
  | .errEvent => true
  | _ => false

/-- The polling loop of the generator (lines 965-999), fuelled.

Each iteration: if the job id is absent from the registry, emit the
error event and break; otherwise emit the snapshot when something
changed or the job is still running, breaking with a repeated final
snapshot on a terminal status, and otherwise count quiet iterations,
emitting a heartbeat snapshot every third one. -/
def sseLoop (store : String → Option Jobs.ProgressRec) (tid : String) :
    Nat → GenState → List Event × Bool
  | 0, _ => ([], false)
  | fuel + 1, st =>
    match store tid with
    | none => ([.errEvent], true)
    | some cur =>
      if progressChanged st cur || cur.status == "running" then
        if cur.status == "completed" || cur.status == "error" then
          ([.snapshot cur, .snapshot cur], true)
        else
          let r := sseLoop store tid fuel ⟨some cur, cur.current_agent, 0⟩
          (.snapshot cur :: r.1, r.2)
      else
        if 3 ≤ st.sameCount + 1 then
          let r := sseLoop store tid fuel ⟨st.lastP, st.lastAgent, 0⟩
          (.snapshot cur :: r.1, r.2)
        else
          sseLoop store tid fuel ⟨st.lastP, st.lastAgent, st.sameCount + 1⟩

/-- The whole event generator `event_generator` (lines 957-999): the
initial `connected` handshake followed by the polling loop started with
empty loop state. -/
def stream_progress (store : String → Option Jobs.ProgressRec) (tid : String)
    (fuel : Nat) : List Event × Bool :=
  let r := sseLoop store tid fuel ⟨none, none, 0⟩
  (.connected tid :: r.1, r.2)

end SSE

namespace Registry

/-- The job-creation write of `create_trip` (`backend/main.py` line 906):
a bare dictionary assignment `trip_progress[trip_id] = {...}`.  There is
no existence check: an existing entry under the same id is replaced. -/
def createJobEntry (store : String → Option Jobs.ProgressRec) (tid : String) :
    String → Option Jobs.ProgressRec :=
  fun k => if k = tid then some Jobs.initialProgress else store k

end Registry

namespace Input

/-!
Model of the duration handling of `app.py`: the duration block of
`validate_input` (lines 194-201) and `estimate_time` (lines 516-538).
Strings are processed as character lists.
-/

/-- Whether `pat` occurs at the start of `l`. -/
def startsWithChars : List Char → List Char → Bool
  | [], _ => true
  | _ :: _, [] => false
  | a :: as, b :: bs => a == b && startsWithChars as bs

/-- Whether `pat` occurs as a contiguous substring of `l`
(Python's `pat in s`). -/
def hasSubChars (pat : List Char) : List Char → Bool
  | [] => pat.isEmpty
  | c :: t => startsWithChars pat (c :: t) || hasSubChars pat t

/-- Helper for `digitRuns`: scan the characters, accumulating the value
of the digit run currently being read. -/
def digitRunsAux : List Char → Option Nat → List Nat
  | [], none => []
  | [], some n => [n]
  | c :: t, acc =>
    if c.isDigit then
      digitRunsAux t (some (acc.getD 0 * 10 + (c.toNat - 48)))
    else
      match acc with
      | none => digitRunsAux t none
      | some n => n :: digitRunsAux t none

/-- The numeric values of the maximal digit runs of a string, in order:
`re.findall(r"\d+", s)` with each match read as an integer. -/
def digitRuns (s : List Char) : List Nat :=
  digitRunsAux s none

/-- Python's `s.lower()` restricted to what matters here: lower-case each
character. -/
def lowerChars (s : List Char) : List Char :=
  s.map Char.toLower

/-- The duration block of `validate_input` (`app.py` lines 194-201): the
list of error messages this block appends.  When the string contains no
digits the block appends nothing — the input passes, and no exception is
raised (`int(...)` is guarded by the emptiness test). -/
def durationErrors (duration : List Char) : List String :=
  match digitRuns duration with
  | [] => []
  | n :: _ =>
    let days := if hasSubChars "week".toList (lowerChars duration) then n * 7 else n
    if 30 < days then ["Trip duration cannot exceed 30 days"] else []

/-- Model of `estimate_time` (`app.py` lines 516-538): read the first
digit run, convert weeks to days, and map the day count to an estimated
processing-time range; with no digits present, silently return the
default `(60, 90)`. -/
def estimate_time (duration : List Char) : Nat × Nat :=
  match digitRuns duration with
  | [] => (60, 90)
  | n :: _ =>
    let days := if hasSubChars "week".toList (lowerChars duration) then n * 7 else n
    if days ≤ 2 then (45, 75)
    else if days ≤ 4 then (60, 90)
    else if days ≤ 7 then (90, 120)
    else (120, 150)

end Input

end TripPlanner

namespace TripPlanner

/-! ## Shared helper lemmas -/

/-- The hourly rollover never touches the daily trip counter. -/
theorem hourlyRollover_trips_today (u : Backend.Usage) (now : Nat) :
    (Backend.hourlyRollover u now).trips_today = u.trips_today := by
  unfold Backend.hourlyRollover
  split <;> rfl

/-- The hourly rollover never touches the accumulated daily cost. -/
theorem hourlyRollover_daily_cost (u : Backend.Usage) (now : Nat) :
    (Backend.hourlyRollover u now).daily_cost = u.daily_cost := by
  unfold Backend.hourlyRollover
  split <;> rfl

/-- When the stored week anchor matches the current week, the weekly
reset of the app's rate limiter is the identity. -/
theorem weeklyReset_eq_of_same_week (rd : App.RateData) (now : Nat)
    (h : rd.week_start = App.weekStartOf now) :
    App.weeklyReset rd now = rd := by
  unfold App.weeklyReset
  simp [h]

/-- Week pruning keeps every trip of the trailing hour: the hourly count
taken after pruning equals the hourly count of the raw trip list. -/
theorem pruneWeek_hour_filter (rd : App.RateData) (now : Nat) :
    ((App.pruneWeek rd now).trips.filter (fun t => now < t + 60)) =
      rd.trips.filter (fun t => now < t + 60) := by
  unfold App.pruneWeek
  rw [List.filter_filter]
  refine List.filter_congr ?_
  intro t _
  by_cases h : now < t + 60
  · have h' : now < t + 10080 := by omega
    simp [h, h']
  · simp [h]

/-- Every record written while a job is running has status `running` and
a progress value of at most 95. -/
theorem runningWrites_status (ticks : List Jobs.Tick) (r : Jobs.ProgressRec)
    (hr : r ∈ Jobs.runningWrites ticks) :
    r.status = "running" ∧ r.progress ≤ 95 := by
  simp only [Jobs.runningWrites, List.mem_cons, List.mem_append, List.mem_map,
    List.mem_singleton, List.not_mem_nil, or_false] at hr
  rcases hr with h | h | h | ⟨tk, _, h⟩ | h
  · subst h; exact ⟨rfl, by decide⟩
  · subst h; exact ⟨rfl, by decide⟩
  · subst h; exact ⟨rfl, by decide⟩
  · subst h; exact ⟨rfl, Nat.min_le_left 95 tk.value⟩
  · subst h; exact ⟨rfl, by decide⟩

/-! ## C7: SSE stream for an unknown job id -/

/-- C7: opening the SSE progress stream for a job identifier that is
unknown to the job registry emits exactly one error event and then closes
the stream: the generator yields the initial connected handshake, then
the single error event, and terminates. -/
theorem c7_sse_unknown_job (store : String → Option Jobs.ProgressRec)
    (tid : String) (fuel : Nat) (hstore : store tid = none) (hfuel : 1 ≤ fuel) :
    SSE.stream_progress store tid fuel = ([.connected tid, .errEvent], true)
    ∧ ((SSE.stream_progress store tid fuel).1.filter SSE.Event.isErr).length = 1
    ∧ (SSE.stream_progress store tid fuel).1.getLast? = some SSE.Event.errEvent := by
  obtain ⟨f, rfl⟩ : ∃ f, fuel = f + 1 := ⟨fuel - 1, by omega⟩
  refine ⟨?_, ?_, ?_⟩ <;>
    simp [SSE.stream_progress, SSE.sseLoop, hstore, SSE.Event.isErr,
      List.getLast?]

/-- Witness for `c7_sse_unknown_job` at a concrete registry, job id and
fuel value. -/
theorem c7_sse_unknown_job_witness :
    SSE.stream_progress (fun _ => none) "ghost" 5 =
      ([.connected "ghost", .errEvent], true) :=
  (c7_sse_unknown_job (fun _ => none) "ghost" 5 rfl (by decide)).1

/-! ## C8: creating a job whose identifier already exists -/

/-- C8 counterexample: with a registry already holding a completed record
under the identifier, the creation write of `create_trip` does not fail
and does not leave the existing record unchanged — it silently replaces
it with the fresh initial running record. -/
theorem c8_counterexample :
    (fun k => if k = "trip_a"
        then some (⟨"completed", none, 100, "done"⟩ : Jobs.ProgressRec)
        else none) "trip_a"
      = some (⟨"completed", none, 100, "done"⟩ : Jobs.ProgressRec)
    ∧ Registry.createJobEntry
        (fun k => if k = "trip_a"
          then some (⟨"completed", none, 100, "done"⟩ : Jobs.ProgressRec)
          else none) "trip_a" "trip_a" = some Jobs.initialProgress
    ∧ Jobs.initialProgress ≠ (⟨"completed", none, 100, "done"⟩ : Jobs.ProgressRec) :=
  ⟨by decide, by decide, by decide⟩

/-- C8 (amended): creating a job under an identifier silently installs
the fresh initial running record at that identifier, replacing any
existing record (no duplicate check and no `DuplicateJobError` exist in
the code); entries under other identifiers are untouched. -/
theorem c8_create_overwrites (store : String → Option Jobs.ProgressRec)
    (tid k : String) :
    Registry.createJobEntry store tid tid = some Jobs.initialProgress
    ∧ (k ≠ tid → Registry.createJobEntry store tid k = store k) := by
  constructor
  · simp [Registry.createJobEntry]
  · intro h
    simp [Registry.createJobEntry, h]

/-- Witness for `c8_create_overwrites` at a concrete registry and
identifiers. -/
theorem c8_create_overwrites_witness :
    Registry.createJobEntry (fun _ => none) "trip_a" "trip_a" =
      some Jobs.initialProgress
    ∧ Registry.createJobEntry (fun _ => none) "trip_a" "trip_b" = none :=
  ⟨(c8_create_overwrites (fun _ => none) "trip_a" "trip_b").1,
   (c8_create_overwrites (fun _ => none) "trip_a" "trip_b").2 (by decide)⟩

/-! ## C9: duration strings with no digits -/

/-- C9 counterexample: for the digit-free duration string "soon", the
duration block of `validate_input` produces no error at all (rather than
an "unparseable duration" error) and `estimate_time` silently substitutes
the default range (60, 90). -/
theorem c9_counterexample :
    Input.durationErrors "soon".toList = []
    ∧ Input.estimate_time "soon".toList = (60, 90) :=
  ⟨by decide, by decide⟩

/-- Helper for C9: a string with no digit characters has no digit runs. -/
theorem digitRunsAux_eq_nil (d : List Char) (h : ∀ c ∈ d, c.isDigit = false) :
    Input.digitRunsAux d none = [] := by
  induction d with
  | nil => rfl
  | cons c t ih =>
    have hc := h c (List.mem_cons_self c t)
    simp only [Input.digitRunsAux, hc, Bool.false_eq_true, if_false]
    exact ih (fun x hx => h x (List.mem_cons_of_mem c hx))

/-- C9 (amended): for every duration string containing no digit
characters, the duration block of `validate_input` appends no error (the
input passes silently, with no exception), and `estimate_time` silently
returns the default range (60, 90) instead of failing. -/
theorem c9_no_digit_duration_defaults (d : List Char)
    (h : ∀ c ∈ d, c.isDigit = false) :
    Input.durationErrors d = [] ∧ Input.estimate_time d = (60, 90) := by
  have hruns : Input.digitRuns d = [] := digitRunsAux_eq_nil d h
  unfold Input.durationErrors Input.estimate_time
  rw [hruns]
  exact ⟨rfl, rfl⟩

/-- Witness for `c9_no_digit_duration_defaults` at the concrete
digit-free duration string "next week". -/
theorem c9_no_digit_duration_defaults_witness :
    Input.durationErrors "next week".toList = []
    ∧ Input.estimate_time "next week".toList = (60, 90) :=
  c9_no_digit_duration_defaults "next week".toList (by decide)

/-! ## C10: daily counters are not reset inside check_rate_limits -/

/-- C10: for a client whose stored daily trip count already equals the
daily cap, `check_rate_limits` rejects with the daily-limit message even
when the last recorded trip was on an earlier calendar day (it leaves the
daily counters untouched), while the daily counters ARE reset by the
recording step `update_usage` and by the usage-snapshot endpoint. -/
theorem c10_daily_reset_location (u : Backend.Usage) (now t : Nat)
    (hlast : u.last_trip_time = some t)
    (hday : dateOf t < dateOf now)
    (hfull : Backend.MAX_TRIPS_PER_DAY ≤ u.trips_today)
    (hhour : u.hour_start < hourStart now) :
    (Backend.check_rate_limits (some u) now).2 =
      (false, some Backend.dailyLimitMsg)
    ∧ (Backend.check_rate_limits (some u) now).1.trips_today = u.trips_today
    ∧ (Backend.check_rate_limits (some u) now).1.daily_cost = u.daily_cost
    ∧ (Backend.update_usage (some u) now).trips_today = 1
    ∧ (Backend.update_usage (some u) now).daily_cost =
        Backend.ESTIMATED_COST_PER_TRIP
    ∧ (Backend.get_usage_record (some u) now).trips_today = 0
    ∧ (Backend.get_usage_record (some u) now).daily_cost = 0 := by
  have hroll : Backend.hourlyRollover u now =
      { u with trips_this_hour := 0, hour_start := hourStart now } := by
    unfold Backend.hourlyRollover
    rw [if_pos hhour]
  have hdr : Backend.dailyRollover u now =
      { u with trips_today := 0, daily_cost := 0 } := by
    unfold Backend.dailyRollover
    rw [hlast]
    simp [hday]
  refine ⟨?_, ?_, ?_, ?_, ?_, ?_, ?_⟩
  · unfold Backend.check_rate_limits
    simp only [Option.getD_some, hroll]
    rw [if_neg (by simp [Backend.MAX_TRIPS_PER_HOUR]), if_pos hfull]
  · unfold Backend.check_rate_limits
    simp only [Option.getD_some, hroll]
    rw [if_neg (by simp [Backend.MAX_TRIPS_PER_HOUR]), if_pos hfull]
  · unfold Backend.check_rate_limits
    simp only [Option.getD_some, hroll]
    rw [if_neg (by simp [Backend.MAX_TRIPS_PER_HOUR]), if_pos hfull]
  · unfold Backend.update_usage
    simp only [Option.getD_some, hdr]
  · unfold Backend.update_usage
    simp only [Option.getD_some, hdr]
    exact Nat.zero_add _
  · unfold Backend.get_usage_record
    simp only [Option.getD_some, hdr]
    unfold Backend.hourlyRollover
    split <;> rfl
  · unfold Backend.get_usage_record
    simp only [Option.getD_some, hdr]
    unfold Backend.hourlyRollover
    split <;> rfl

/-- Witness for `c10_daily_reset_location`: a client who filled the daily
cap on day 0 (last trip at minute 0) and submits again at the start of
day 1 is still rejected with the daily-limit message. -/
theorem c10_daily_reset_location_witness :
    (Backend.check_rate_limits
        (some { trips_today := 50, trips_this_hour := 0, daily_cost := 25000,
                last_trip_time := some 0, hour_start := 0 }) 1440).2 =
      (false, some Backend.dailyLimitMsg)
    ∧ (Backend.update_usage
        (some { trips_today := 50, trips_this_hour := 0, daily_cost := 25000,
                last_trip_time := some 0, hour_start := 0 }) 1440).trips_today = 1
    ∧ (Backend.get_usage_record
        (some { trips_today := 50, trips_this_hour := 0, daily_cost := 25000,
                last_trip_time := some 0, hour_start := 0 }) 1440).trips_today = 0 := by
  have h := c10_daily_reset_location
    { trips_today := 50, trips_this_hour := 0, daily_cost := 25000,
      last_trip_time := some 0, hour_start := 0 } 1440 0
    rfl (by decide) (by decide) (by decide)
  exact ⟨h.1, h.2.2.2.1, h.2.2.2.2.2.1⟩

/-! ## C5: the cost cap rejects even with count headroom -/

/-- C5: when the accumulated cost plus the estimated cost of the next
trip would exceed the configured cost cap, the submission is rejected
with the cost-cap message even though every count-based cap still has
headroom — in the backend ledger (hourly and daily caps unsaturated,
daily cost cap exceeded) and in the app ledger (hourly, daily and weekly
caps unsaturated, weekly cost cap exceeded). -/
theorem c5_cost_cap_rejects (u : Backend.Usage) (now : Nat)
    (rd : App.RateData) (m : Nat)
    (hhour : (Backend.hourlyRollover u now).trips_this_hour <
      Backend.MAX_TRIPS_PER_HOUR)
    (hday : u.trips_today < Backend.MAX_TRIPS_PER_DAY)
    (hcost : Backend.DAILY_COST_CAP_USD <
      u.daily_cost + Backend.ESTIMATED_COST_PER_TRIP)
    (hweekA : rd.week_start = App.weekStartOf m)
    (hhourA : ((App.pruneWeek rd m).trips.filter
        (fun t => m < t + 60)).length < App.MAX_TRIPS_PER_HOUR)
    (hdayA : ((App.pruneWeek rd m).trips.filter
        (fun t => dateOf t = dateOf m)).length < App.MAX_TRIPS_PER_DAY)
    (hweekcntA : (App.pruneWeek rd m).trips.length < App.MAX_TRIPS_PER_WEEK)
    (hcostA : App.WEEKLY_COST_CAP_USD <
      rd.weekly_cost + App.ESTIMATED_COST_PER_TRIP) :
    (Backend.check_rate_limits (some u) now).2 =
      (false, some Backend.costCapMsg)
    ∧ (App.check_rate_limit rd m).2 = (false, some App.weeklyCostMsg) := by
  constructor
  · unfold Backend.check_rate_limits
    simp only [Option.getD_some]
    rw [if_neg (Nat.not_le.mpr hhour),
      if_neg (Nat.not_le.mpr (by rw [hourlyRollover_trips_today]; exact hday)),
      if_pos (by rw [hourlyRollover_daily_cost]; exact hcost)]
  · unfold App.check_rate_limit
    rw [weeklyReset_eq_of_same_week rd m hweekA,
      if_neg (Nat.not_le.mpr hhourA), if_neg (Nat.not_le.mpr hdayA),
      if_neg (Nat.not_le.mpr hweekcntA),
      if_pos (by
        have : (App.pruneWeek rd m).weekly_cost = rd.weekly_cost := rfl
        rw [this]; exact hcostA)]

/-- Witness for `c5_cost_cap_rejects`: a backend client with zero counts
but 996.00 accumulated and an app session with no recorded trips but
9.98 accumulated are both rejected on cost alone. -/
theorem c5_cost_cap_rejects_witness :
    (Backend.check_rate_limits
        (some { trips_today := 0, trips_this_hour := 0, daily_cost := 99600,
                last_trip_time := some 0, hour_start := 0 }) 0).2 =
      (false, some Backend.costCapMsg)
    ∧ (App.check_rate_limit { trips := [], weekly_cost := 998, week_start := 0 } 0).2 =
      (false, some App.weeklyCostMsg) :=
  c5_cost_cap_rejects
    { trips_today := 0, trips_this_hour := 0, daily_cost := 99600,
      last_trip_time := some 0, hour_start := 0 } 0
    { trips := [], weekly_cost := 998, week_start := 0 } 0
    (by decide) (by decide) (by decide) (by decide)
    (by decide) (by decide) (by decide) (by decide)

/-! ## C2: the hourly cap and the rolling hour -/

/-- C2 counterexample: eleven submissions, all lying within one rolling
(trailing) hour of the last one — ten at minute 59 and one at minute 61.
With the hourly cap at 10, the claim requires the eleventh submission to
be rejected; the backend admits all eleven, because `check_rate_limits`
resets its hourly counter at every calendar-hour boundary (minute 60)
instead of counting a trailing hour. -/
theorem c2_counterexample :
    (List.replicate 10 59 ++ [61]).length = 11
    ∧ (∀ t ∈ List.replicate 10 59 ++ [61], 61 < t + 60 ∧ t ≤ 61)
    ∧ Backend.countAdmitted (List.replicate 10 59 ++ [61]) = 11 :=
  ⟨by decide, by decide, by decide⟩

/-- C2 (amended): the hourly cap is enforced against the window each
limiter actually uses.  Backend: a client whose recorded hourly count has
reached the cap is rejected with the hourly message whenever the
submission falls in the same calendar hour as the stored hour anchor
(across a calendar-hour boundary the counter is reset, as the
counterexample shows).  App: a session with at least 5 recorded trips in
the trailing hour of the submission is rejected with the hourly message,
provided no ISO-week rollover has cleared the records — in both cases
regardless of daily, weekly or cost headroom. -/
theorem c2_hourly_cap (u : Backend.Usage) (now : Nat)
    (hsame : ¬ u.hour_start < hourStart now)
    (hfull : Backend.MAX_TRIPS_PER_HOUR ≤ u.trips_this_hour)
    (rd : App.RateData) (m : Nat)
    (hweek : rd.week_start = App.weekStartOf m)
    (hcount : App.MAX_TRIPS_PER_HOUR ≤
      (rd.trips.filter (fun t => m < t + 60)).length) :
    (Backend.check_rate_limits (some u) now).2 =
      (false, some Backend.hourlyLimitMsg)
    ∧ (App.check_rate_limit rd m).2 = (false, some App.hourlyLimitMsg) := by
  constructor
  · unfold Backend.check_rate_limits
    simp only [Option.getD_some]
    rw [if_pos (by
      unfold Backend.hourlyRollover
      rw [if_neg hsame]
      exact hfull)]
  · unfold App.check_rate_limit
    rw [weeklyReset_eq_of_same_week rd m hweek,
      if_pos (by rw [pruneWeek_hour_filter]; exact hcount)]

/-- Witness for `c2_hourly_cap`: a backend client with 10 trips recorded
in the current calendar hour, and an app session with 5 trips recorded in
the last 50 minutes, are both rejected with their hourly messages. -/
theorem c2_hourly_cap_witness :
    (Backend.check_rate_limits
        (some { trips_today := 10, trips_this_hour := 10, daily_cost := 5000,
                last_trip_time := some 59, hour_start := 0 }) 59).2 =
      (false, some Backend.hourlyLimitMsg)
    ∧ (App.check_rate_limit
        { trips := [0, 10, 20, 30, 40], weekly_cost := 15, week_start := 0 } 50).2 =
      (false, some App.hourlyLimitMsg) :=
  c2_hourly_cap
    { trips_today := 10, trips_this_hour := 10, daily_cost := 5000,
      last_trip_time := some 59, hour_start := 0 } 59
    (by decide) (by decide)
    { trips := [0, 10, 20, 30, 40], weekly_cost := 15, week_start := 0 } 50
    (by decide) (by decide)

/-! ## C6: order of cap evaluation; absence of a weekly cap in the backend -/

/-- C6 counterexample: 101 submissions within one trailing week (at most
20 per day, at most 10 per calendar hour, far below the daily cost cap)
are ALL admitted by the backend.  Under the claim a weekly cap is among
the caps evaluated — with the configured weekly cap of 100 trips the
101st submission of the week would have to be rejected — so the claim is
false of the backend's `check_rate_limits`, which evaluates only the
hourly, daily and cost caps. -/
theorem c6_counterexample :
    Backend.cxWeekTimes.length = 101
    ∧ (∀ t ∈ Backend.cxWeekTimes, t ≤ 7200 ∧ 7200 < t + 10080)
    ∧ Backend.countAdmitted Backend.cxWeekTimes = 101 :=
  ⟨by decide, by decide, by decide⟩

/-- C6 (amended): each admission check evaluates its caps in a fixed
order and rejects with the message of the first cap exceeded.  The
backend's `check_rate_limits` evaluates hourly, daily, cost — it has no
weekly cap.  The app's `check_rate_limit` evaluates hourly, daily,
weekly, cost.  In both, when several caps are simultaneously exceeded the
reported reason is the earliest in that order, and when no cap is
exceeded the submission is admitted. -/
theorem c6_cap_order (u : Backend.Usage) (now : Nat)
    (rd : App.RateData) (m : Nat)
    (hweek : rd.week_start = App.weekStartOf m) :
    (Backend.MAX_TRIPS_PER_HOUR ≤ (Backend.hourlyRollover u now).trips_this_hour →
      (Backend.check_rate_limits (some u) now).2 =
        (false, some Backend.hourlyLimitMsg))
    ∧ ((Backend.hourlyRollover u now).trips_this_hour < Backend.MAX_TRIPS_PER_HOUR →
        Backend.MAX_TRIPS_PER_DAY ≤ u.trips_today →
        (Backend.check_rate_limits (some u) now).2 =
          (false, some Backend.dailyLimitMsg))
    ∧ ((Backend.hourlyRollover u now).trips_this_hour < Backend.MAX_TRIPS_PER_HOUR →
        u.trips_today < Backend.MAX_TRIPS_PER_DAY →
        Backend.DAILY_COST_CAP_USD < u.daily_cost + Backend.ESTIMATED_COST_PER_TRIP →
        (Backend.check_rate_limits (some u) now).2 =
          (false, some Backend.costCapMsg))
    ∧ ((Backend.hourlyRollover u now).trips_this_hour < Backend.MAX_TRIPS_PER_HOUR →
        u.trips_today < Backend.MAX_TRIPS_PER_DAY →
        u.daily_cost + Backend.ESTIMATED_COST_PER_TRIP ≤ Backend.DAILY_COST_CAP_USD →
        (Backend.check_rate_limits (some u) now).2 = (true, none))
    ∧ (App.MAX_TRIPS_PER_HOUR ≤
        ((App.pruneWeek rd m).trips.filter (fun t => m < t + 60)).length →
        (App.check_rate_limit rd m).2 = (false, some App.hourlyLimitMsg))
    ∧ (((App.pruneWeek rd m).trips.filter (fun t => m < t + 60)).length <
        App.MAX_TRIPS_PER_HOUR →
        App.MAX_TRIPS_PER_DAY ≤
          ((App.pruneWeek rd m).trips.filter (fun t => dateOf t = dateOf m)).length →
        (App.check_rate_limit rd m).2 = (false, some App.dailyLimitMsg))
    ∧ (((App.pruneWeek rd m).trips.filter (fun t => m < t + 60)).length <
        App.MAX_TRIPS_PER_HOUR →
        ((App.pruneWeek rd m).trips.filter (fun t => dateOf t = dateOf m)).length <
          App.MAX_TRIPS_PER_DAY →
        App.MAX_TRIPS_PER_WEEK ≤ (App.pruneWeek rd m).trips.length →
        (App.check_rate_limit rd m).2 = (false, some App.weeklyLimitMsg))
    ∧ (((App.pruneWeek rd m).trips.filter (fun t => m < t + 60)).length <
        App.MAX_TRIPS_PER_HOUR →
        ((App.pruneWeek rd m).trips.filter (fun t => dateOf t = dateOf m)).length <
          App.MAX_TRIPS_PER_DAY →
        (App.pruneWeek rd m).trips.length < App.MAX_TRIPS_PER_WEEK →
        App.WEEKLY_COST_CAP_USD < rd.weekly_cost + App.ESTIMATED_COST_PER_TRIP →
        (App.check_rate_limit rd m).2 = (false, some App.weeklyCostMsg))
    ∧ (((App.pruneWeek rd m).trips.filter (fun t => m < t + 60)).length <
        App.MAX_TRIPS_PER_HOUR →
        ((App.pruneWeek rd m).trips.filter (fun t => dateOf t = dateOf m)).length <
          App.MAX_TRIPS_PER_DAY →
        (App.pruneWeek rd m).trips.length < App.MAX_TRIPS_PER_WEEK →
        rd.weekly_cost + App.ESTIMATED_COST_PER_TRIP ≤ App.WEEKLY_COST_CAP_USD →
        (App.check_rate_limit rd m).2 = (true, none)) := by
  have hcost : (App.pruneWeek rd m).weekly_cost = rd.weekly_cost := rfl
  refine ⟨?_, ?_, ?_, ?_, ?_, ?_, ?_, ?_, ?_⟩
  · intro h1
    unfold Backend.check_rate_limits
    simp only [Option.getD_some]
    rw [if_pos h1]
  · intro h1 h2
    unfold Backend.check_rate_limits
    simp only [Option.getD_some]
    rw [if_neg (Nat.not_le.mpr h1),
      if_pos (by rw [hourlyRollover_trips_today]; exact h2)]
  · intro h1 h2 h3
    unfold Backend.check_rate_limits
    simp only [Option.getD_some]
    rw [if_neg (Nat.not_le.mpr h1),
      if_neg (Nat.not_le.mpr (by rw [hourlyRollover_trips_today]; exact h2)),
      if_pos (by rw [hourlyRollover_daily_cost]; exact h3)]
  · intro h1 h2 h3
    unfold Backend.check_rate_limits
    simp only [Option.getD_some]
    rw [if_neg (Nat.not_le.mpr h1),
      if_neg (Nat.not_le.mpr (by rw [hourlyRollover_trips_today]; exact h2)),
      if_neg (Nat.not_lt.mpr (by rw [hourlyRollover_daily_cost]; exact h3))]
  · intro h1
    unfold App.check_rate_limit
    rw [weeklyReset_eq_of_same_week rd m hweek, if_pos h1]
  · intro h1 h2
    unfold App.check_rate_limit
    rw [weeklyReset_eq_of_same_week rd m hweek,
      if_neg (Nat.not_le.mpr h1), if_pos h2]
  · intro h1 h2 h3
    unfold App.check_rate_limit
    rw [weeklyReset_eq_of_same_week rd m hweek,
      if_neg (Nat.not_le.mpr h1), if_neg (Nat.not_le.mpr h2), if_pos h3]
  · intro h1 h2 h3 h4
    unfold App.check_rate_limit
    rw [weeklyReset_eq_of_same_week rd m hweek,
      if_neg (Nat.not_le.mpr h1), if_neg (Nat.not_le.mpr h2),
      if_neg (Nat.not_le.mpr h3), if_pos (by rw [hcost]; exact h4)]
  · intro h1 h2 h3 h4
    unfold App.check_rate_limit
    rw [weeklyReset_eq_of_same_week rd m hweek,
      if_neg (Nat.not_le.mpr h1), if_neg (Nat.not_le.mpr h2),
      if_neg (Nat.not_le.mpr h3),
      if_neg (Nat.not_lt.mpr (by rw [hcost]; exact h4))]

/-- Witness for `c6_cap_order`: one concrete state per branch — a backend
state saturating each of its three caps (reporting the earliest), an
admitted backend state, app states saturating each of its four caps, and
an admitted app state. -/
theorem c6_cap_order_witness :
    (Backend.check_rate_limits
        (some { trips_today := 50, trips_this_hour := 10, daily_cost := 100000,
                last_trip_time := some 0, hour_start := 0 }) 0).2 =
      (false, some Backend.hourlyLimitMsg)
    ∧ (Backend.check_rate_limits
        (some { trips_today := 50, trips_this_hour := 0, daily_cost := 100000,
                last_trip_time := some 0, hour_start := 0 }) 0).2 =
      (false, some Backend.dailyLimitMsg)
    ∧ (Backend.check_rate_limits
        (some { trips_today := 0, trips_this_hour := 0, daily_cost := 99600,
                last_trip_time := some 0, hour_start := 0 }) 0).2 =
      (false, some Backend.costCapMsg)
    ∧ (Backend.check_rate_limits
        (some { trips_today := 0, trips_this_hour := 0, daily_cost := 0,
                last_trip_time := none, hour_start := 0 }) 0).2 = (true, none)
    ∧ (App.check_rate_limit
        { trips := [0, 10, 20, 30, 40], weekly_cost := 0, week_start := 0 } 50).2 =
      (false, some App.hourlyLimitMsg)
    ∧ (App.check_rate_limit
        { trips := List.range 50, weekly_cost := 0, week_start := 0 } 1000).2 =
      (false, some App.dailyLimitMsg)
    ∧ (App.check_rate_limit
        { trips := List.range 50 ++ (List.range 50).map (fun i => 1440 + i),
          weekly_cost := 0, week_start := 0 } 2900).2 =
      (false, some App.weeklyLimitMsg)
    ∧ (App.check_rate_limit
        { trips := [], weekly_cost := 998, week_start := 0 } 0).2 =
      (false, some App.weeklyCostMsg)
    ∧ (App.check_rate_limit
        { trips := [], weekly_cost := 0, week_start := 0 } 0).2 = (true, none) := by
  refine ⟨?_, ?_, ?_, ?_, ?_, ?_, ?_, ?_, ?_⟩
  · exact (c6_cap_order
      { trips_today := 50, trips_this_hour := 10, daily_cost := 100000,
        last_trip_time := some 0, hour_start := 0 } 0
      { trips := [], weekly_cost := 0, week_start := 0 } 0 (by decide)).1
      (by decide)
  · exact (c6_cap_order
      { trips_today := 50, trips_this_hour := 0, daily_cost := 100000,
        last_trip_time := some 0, hour_start := 0 } 0
      { trips := [], weekly_cost := 0, week_start := 0 } 0 (by decide)).2.1
      (by decide) (by decide)
  · exact (c6_cap_order
      { trips_today := 0, trips_this_hour := 0, daily_cost := 99600,
        last_trip_time := some 0, hour_start := 0 } 0
      { trips := [], weekly_cost := 0, week_start := 0 } 0 (by decide)).2.2.1
      (by decide) (by decide) (by decide)
  · exact (c6_cap_order
      { trips_today := 0, trips_this_hour := 0, daily_cost := 0,
        last_trip_time := none, hour_start := 0 } 0
      { trips := [], weekly_cost := 0, week_start := 0 } 0 (by decide)).2.2.2.1
      (by decide) (by decide) (by decide)
  · exact (c6_cap_order
      { trips_today := 0, trips_this_hour := 0, daily_cost := 0,
        last_trip_time := none, hour_start := 0 } 0
      { trips := [0, 10, 20, 30, 40], weekly_cost := 0, week_start := 0 } 50
      (by decide)).2.2.2.2.1 (by decide)
  · exact (c6_cap_order
      { trips_today := 0, trips_this_hour := 0, daily_cost := 0,
        last_trip_time := none, hour_start := 0 } 0
      { trips := List.range 50, weekly_cost := 0, week_start := 0 } 1000
      (by decide)).2.2.2.2.2.1 (by decide) (by decide)
  · exact (c6_cap_order
      { trips_today := 0, trips_this_hour := 0, daily_cost := 0,
        last_trip_time := none, hour_start := 0 } 0
      { trips := List.range 50 ++ (List.range 50).map (fun i => 1440 + i),
        weekly_cost := 0, week_start := 0 } 2900
      (by decide)).2.2.2.2.2.2.1 (by decide) (by decide) (by decide)
  · exact (c6_cap_order
      { trips_today := 0, trips_this_hour := 0, daily_cost := 0,
        last_trip_time := none, hour_start := 0 } 0
      { trips := [], weekly_cost := 998, week_start := 0 } 0
      (by decide)).2.2.2.2.2.2.2.1 (by decide) (by decide) (by decide) (by decide)
  · exact (c6_cap_order
      { trips_today := 0, trips_this_hour := 0, daily_cost := 0,
        last_trip_time := none, hour_start := 0 } 0
      { trips := [], weekly_cost := 0, week_start := 0 } 0
      (by decide)).2.2.2.2.2.2.2.2 (by decide) (by decide) (by decide) (by decide)

/-! ## C3: progress percentage over a job lifetime -/

/-- C3 counterexample: a job that errors after the second research update
produces the progress write sequence 0, 10, 15, 0 — the sequence observed
by polling is not non-decreasing, and on error the percentage is changed
to 0 rather than left at its last value (15). -/
theorem c3_counterexample :
    (Jobs.errorTrace [] 2 "boom").map (fun s => s.1.progress) = [0, 10, 15, 0]
    ∧ Jobs.nondecr ((Jobs.errorTrace [] 2 "boom").map (fun s => s.1.progress)) =
      false :=
  ⟨by decide, by decide⟩

/-- C3 (amended): over the lifetime of a job, every state before the
terminal one has status `running` with progress at most 95; a job that
terminates successfully ends with status `completed` and progress exactly
100; a job that errors ends with status `error` and progress reset to 0
(the error update forces progress to 0 whatever the previous value was),
so the final percentage is 100 exactly when the terminal status is
`completed` — but the sequence is not guaranteed non-decreasing, since
the error update lowers it. -/
theorem c3_progress_terminal (ticks : List Jobs.Tick) (html emsg : String)
    (k : Nat) :
    ((Jobs.successTrace ticks html).getLastD
      (Jobs.initialProgress, none)).1.status = "completed"
    ∧ ((Jobs.successTrace ticks html).getLastD
        (Jobs.initialProgress, none)).1.progress = 100
    ∧ (∀ s ∈ (Jobs.successTrace ticks html).dropLast,
        s.1.status = "running" ∧ s.1.progress ≤ 95)
    ∧ ((Jobs.errorTrace ticks k emsg).getLastD
        (Jobs.initialProgress, none)).1.status = "error"
    ∧ ((Jobs.errorTrace ticks k emsg).getLastD
        (Jobs.initialProgress, none)).1.progress = 0
    ∧ (∀ s ∈ (Jobs.errorTrace ticks k emsg).dropLast,
        s.1.status = "running" ∧ s.1.progress ≤ 95)
    ∧ (∀ r : Jobs.ProgressRec, (Jobs.applyError emsg r).progress = 0) := by
  have hS : Jobs.successTrace ticks html =
      (Jobs.runningWrites ticks).map (fun r => (r, none)) ++
        [(Jobs.applyComplete Jobs.finalizeRec, some html)] := rfl
  have hE : Jobs.errorTrace ticks k emsg =
      ((Jobs.runningWrites ticks).take (k + 1)).map (fun r => (r, none)) ++
        [(Jobs.applyError emsg
            (((Jobs.runningWrites ticks).take (k + 1)).getLastD
              Jobs.initialProgress), none)] := rfl
  refine ⟨?_, ?_, ?_, ?_, ?_, ?_, fun r => rfl⟩
  · rw [hS, List.getLastD_concat]
    rfl
  · rw [hS, List.getLastD_concat]
    rfl
  · rw [hS, List.dropLast_concat]
    intro s hs
    obtain ⟨r, hr, rfl⟩ := List.mem_map.mp hs
    exact runningWrites_status ticks r hr
  · rw [hE, List.getLastD_concat]
    rfl
  · rw [hE, List.getLastD_concat]
    rfl
  · rw [hE, List.dropLast_concat]
    intro s hs
    obtain ⟨r, hr, rfl⟩ := List.mem_map.mp hs
    exact runningWrites_status ticks r (List.mem_of_mem_take hr)

/-- Witness for `c3_progress_terminal` at a concrete run with one monitor
tick on the success path and an error striking after the second research
update on the failure path. -/
theorem c3_progress_terminal_witness :
    ((Jobs.successTrace [⟨"trip_reviewer", 40, "working"⟩] "plan").getLastD
      (Jobs.initialProgress, none)).1.progress = 100
    ∧ ((Jobs.errorTrace [] 3 "crash").getLastD
        (Jobs.initialProgress, none)).1.progress = 0
    ∧ ((Jobs.researchWorkRec, (none : Option String)).1.status = "running"
        ∧ (Jobs.researchWorkRec, (none : Option String)).1.progress ≤ 95) := by
  have h := c3_progress_terminal [⟨"trip_reviewer", 40, "working"⟩] "plan" "crash" 3
  exact ⟨h.2.1, h.2.2.2.2.1, h.2.2.1 (Jobs.researchWorkRec, none) (by decide)⟩

/-! ## C4: exactly one of result and error, stable after a terminal state -/

/-- C4: while a job's status is `running`, the result store has no entry
for it and no error description is set; once the status leaves `running`,
exactly one of the two is populated — a successful job ends `completed`
with the stored HTML and no error, a failed job ends `error` with the
error description in its message and no stored result — and the terminal
state is the last state of the observable history, so neither the
populated value nor the status changes afterwards. -/
theorem c4_exactly_one_outcome (ticks : List Jobs.Tick) (html emsg : String)
    (k : Nat) :
    (∀ s ∈ Jobs.successTrace ticks html, s.1.status = "running" → s.2 = none)
    ∧ (∀ s ∈ Jobs.errorTrace ticks k emsg, s.2 = none)
    ∧ ((Jobs.successTrace ticks html).getLastD
        (Jobs.initialProgress, none)).1.status = "completed"
    ∧ ((Jobs.successTrace ticks html).getLastD
        (Jobs.initialProgress, none)).2 = some html
    ∧ ((Jobs.errorTrace ticks k emsg).getLastD
        (Jobs.initialProgress, none)).1.status = "error"
    ∧ ((Jobs.errorTrace ticks k emsg).getLastD
        (Jobs.initialProgress, none)).1.message = "Error: " ++ emsg
    ∧ (∀ s ∈ (Jobs.successTrace ticks html).dropLast, s.1.status = "running")
    ∧ (∀ s ∈ (Jobs.errorTrace ticks k emsg).dropLast, s.1.status = "running") := by
  have hS : Jobs.successTrace ticks html =
      (Jobs.runningWrites ticks).map (fun r => (r, none)) ++
        [(Jobs.applyComplete Jobs.finalizeRec, some html)] := rfl
  have hE : Jobs.errorTrace ticks k emsg =
      ((Jobs.runningWrites ticks).take (k + 1)).map (fun r => (r, none)) ++
        [(Jobs.applyError emsg
            (((Jobs.runningWrites ticks).take (k + 1)).getLastD
              Jobs.initialProgress), none)] := rfl
  refine ⟨?_, ?_, ?_, ?_, ?_, ?_, ?_, ?_⟩
  · rw [hS]
    intro s hs hrun
    rcases List.mem_append.mp hs with h | h
    · obtain ⟨r, _, rfl⟩ := List.mem_map.mp h
      rfl
    · rw [List.mem_singleton.mp h] at hrun
      exact absurd (show "completed" = "running" from hrun) (by decide)
  · rw [hE]
    intro s hs
    rcases List.mem_append.mp hs with h | h
    · obtain ⟨r, _, rfl⟩ := List.mem_map.mp h
      rfl
    · rw [List.mem_singleton.mp h]
  · rw [hS, List.getLastD_concat]
    rfl
  · rw [hS, List.getLastD_concat]
  · rw [hE, List.getLastD_concat]
    rfl
  · rw [hE, List.getLastD_concat]
    rfl
  · rw [hS, List.dropLast_concat]
    intro s hs
    obtain ⟨r, hr, rfl⟩ := List.mem_map.mp hs
    exact (runningWrites_status ticks r hr).1
  · rw [hE, List.dropLast_concat]
    intro s hs
    obtain ⟨r, hr, rfl⟩ := List.mem_map.mp hs
    exact (runningWrites_status ticks r (List.mem_of_mem_take hr)).1

/-- Witness for `c4_exactly_one_outcome` at a concrete successful run and
a concrete failed run. -/
theorem c4_exactly_one_outcome_witness :
    ((Jobs.successTrace [] "itinerary").getLastD
      (Jobs.initialProgress, none)).2 = some "itinerary"
    ∧ ((Jobs.errorTrace [] 1 "no key").getLastD
        (Jobs.initialProgress, none)).1.message = "Error: no key"
    ∧ (Jobs.initialProgress, (none : Option String)).2 = (none : Option String) := by
  have h := c4_exactly_one_outcome [] "itinerary" "no key" 1
  exact ⟨h.2.2.2.1, h.2.2.2.2.2.1,
    h.1 (Jobs.initialProgress, none) (by decide) (by decide)⟩

/-! ## C1: concurrent submissions and the hourly headroom -/

/-- Helper for C1: the hour anchor left by the hourly rollover is never
strictly before the current hour start. -/
theorem hourlyRollover_hour_anchor (v : Backend.Usage) (now : Nat) :
    ¬ (Backend.hourlyRollover v now).hour_start < hourStart now := by
  unfold Backend.hourlyRollover
  split
  · exact Nat.lt_irrefl _
  · assumption

/-- Helper for C1: with the hour anchor already current, the hourly
rollover is the identity. -/
theorem hourlyRollover_id (v : Backend.Usage) (now : Nat)
    (h : ¬ v.hour_start < hourStart now) :
    Backend.hourlyRollover v now = v := by
  unfold Backend.hourlyRollover
  rw [if_neg h]

/-- The hourly rollover preserves the last-trip timestamp. -/
theorem hourlyRollover_last_trip_time (v : Backend.Usage) (now : Nat) :
    (Backend.hourlyRollover v now).last_trip_time = v.last_trip_time := by
  unfold Backend.hourlyRollover
  split <;> rfl

/-- Helper for C1: with no recorded trip on an earlier calendar day, the
daily rollover of `update_usage` is the identity. -/
theorem dailyRollover_id (v : Backend.Usage) (now : Nat)
    (h : ∀ t, v.last_trip_time = some t → ¬ dateOf t < dateOf now) :
    Backend.dailyRollover v now = v := by
  unfold Backend.dailyRollover
  split
  · rename_i t heq
    rw [if_neg (h t heq)]
  · rfl

/-- Helper for C1: a submission whose post-rollover hourly count has
reached the hourly cap is rejected by `check_rate_limits`. -/
theorem check_reject_hourly (v : Backend.Usage) (now : Nat)
    (h : Backend.MAX_TRIPS_PER_HOUR ≤ (Backend.hourlyRollover v now).trips_this_hour) :
    Backend.check_rate_limits (some v) now =
      (Backend.hourlyRollover v now, false, some Backend.hourlyLimitMsg) := by
  unfold Backend.check_rate_limits
  simp only [Option.getD_some]
  rw [if_pos h]

/-- Helper for C1: a submission under all three caps is admitted by
`check_rate_limits`, leaving the rolled-over entry. -/
theorem check_admit (v : Backend.Usage) (now : Nat)
    (h1 : (Backend.hourlyRollover v now).trips_this_hour < Backend.MAX_TRIPS_PER_HOUR)
    (h2 : (Backend.hourlyRollover v now).trips_today < Backend.MAX_TRIPS_PER_DAY)
    (h3 : (Backend.hourlyRollover v now).daily_cost + Backend.ESTIMATED_COST_PER_TRIP ≤
      Backend.DAILY_COST_CAP_USD) :
    Backend.check_rate_limits (some v) now =
      (Backend.hourlyRollover v now, true, none) := by
  unfold Backend.check_rate_limits
  simp only [Option.getD_some]
  rw [if_neg (Nat.not_le.mpr h1), if_neg (Nat.not_le.mpr h2),
    if_neg (Nat.not_lt.mpr h3)]

/-- Helper for C1: a rejected submission leaves the rolled-over ledger
entry and records nothing. -/
theorem submit_reject_hourly (v : Backend.Usage) (now : Nat)
    (h : Backend.MAX_TRIPS_PER_HOUR ≤ (Backend.hourlyRollover v now).trips_this_hour) :
    Backend.submit (some v) now = (some (Backend.hourlyRollover v now), false) := by
  simp [Backend.submit, check_reject_hourly v now h]

/-- Helper for C1: an admitted submission records the trip on top of the
rolled-over ledger entry. -/
theorem submit_admit (v : Backend.Usage) (now : Nat)
    (h1 : (Backend.hourlyRollover v now).trips_this_hour < Backend.MAX_TRIPS_PER_HOUR)
    (h2 : (Backend.hourlyRollover v now).trips_today < Backend.MAX_TRIPS_PER_DAY)
    (h3 : (Backend.hourlyRollover v now).daily_cost + Backend.ESTIMATED_COST_PER_TRIP ≤
      Backend.DAILY_COST_CAP_USD) :
    Backend.submit (some v) now =
      (some (Backend.update_usage (some (Backend.hourlyRollover v now)) now), true) := by
  simp [Backend.submit, check_admit v now h1 h2 h3]

/-- Helper for C1: with no pending day rollover, `update_usage` is a plain
increment of the counters plus the new timestamp. -/
theorem update_usage_no_reset (v : Backend.Usage) (now : Nat)
    (h : ∀ t, v.last_trip_time = some t → ¬ dateOf t < dateOf now) :
    Backend.update_usage (some v) now =
      { v with trips_today := v.trips_today + 1
               trips_this_hour := v.trips_this_hour + 1
               daily_cost := v.daily_cost + Backend.ESTIMATED_COST_PER_TRIP
               last_trip_time := some now } := by
  unfold Backend.update_usage
  simp only [Option.getD_some, dailyRollover_id v now h]

/-- Helper for C1: one step of the submission fold. -/
theorem countAdmittedFrom_cons (u0 : Option Backend.Usage) (t : Nat)
    (ts : List Nat) :
    Backend.countAdmittedFrom u0 (t :: ts) =
      (if (Backend.submit u0 t).2 then 1 else 0) +
        Backend.countAdmittedFrom (Backend.submit u0 t).1 ts := rfl

/-- Helper for C1: the serialized fold of concurrent submissions, by
induction over the batch.  `a`, `td` and `dc` are the post-rollover
hourly count, daily count and daily cost of the starting entry; after `j`
admissions the entry holds `a + j`, `td + j` and `dc + j` trips worth of
cost, and the next submission is admitted exactly when `a + j` is still
under the hourly cap. -/
theorem c1_fold_aux (now a td dc : Nat)
    (ha : a ≤ Backend.MAX_TRIPS_PER_HOUR)
    (hday : td + (Backend.MAX_TRIPS_PER_HOUR - a) ≤ Backend.MAX_TRIPS_PER_DAY)
    (hcost : dc + (Backend.MAX_TRIPS_PER_HOUR - a) * Backend.ESTIMATED_COST_PER_TRIP ≤
      Backend.DAILY_COST_CAP_USD) :
    ∀ (K : Nat) (v : Backend.Usage) (j : Nat),
      (Backend.hourlyRollover v now).trips_this_hour = a + j →
      (Backend.hourlyRollover v now).trips_today = td + j →
      (Backend.hourlyRollover v now).daily_cost =
        dc + j * Backend.ESTIMATED_COST_PER_TRIP →
      (∀ t, (Backend.hourlyRollover v now).last_trip_time = some t →
        ¬ dateOf t < dateOf now) →
      Backend.countAdmittedFrom (some v) (List.replicate K now) =
        min K (Backend.MAX_TRIPS_PER_HOUR - (a + j)) := by
  simp only [Backend.MAX_TRIPS_PER_HOUR, Backend.MAX_TRIPS_PER_DAY,
    Backend.ESTIMATED_COST_PER_TRIP, Backend.DAILY_COST_CAP_USD] at *
  intro K
  induction K with
  | zero =>
    intro v j _ _ _ _
    simp [Backend.countAdmittedFrom]
  | succ K ih =>
    intro v j h1 h2 h3 h4
    rw [List.replicate_succ, countAdmittedFrom_cons]
    by_cases hb : 10 ≤ a + j
    · have hrej := submit_reject_hourly v now (by rw [h1]; exact hb)
      have hfix := hourlyRollover_id (Backend.hourlyRollover v now) now
        (hourlyRollover_hour_anchor v now)
      have hrec := ih (Backend.hourlyRollover v now) j
        (by rw [hfix]; exact h1) (by rw [hfix]; exact h2)
        (by rw [hfix]; exact h3) (by rw [hfix]; exact h4)
      rw [hrej] at *
      simp only [Bool.false_eq_true, if_false]
      rw [hrec]
      omega
    · have hb' : a + j < 10 := by omega
      have h1' : (Backend.hourlyRollover v now).trips_this_hour < 10 := by
        rw [h1]; exact hb'
      have h2' : (Backend.hourlyRollover v now).trips_today < 50 := by
        rw [h2]; omega
      have h3' : (Backend.hourlyRollover v now).daily_cost + 500 ≤ 100000 := by
        rw [h3]; omega
      have hsub := submit_admit v now h1' h2' h3'
      have hupd := update_usage_no_reset (Backend.hourlyRollover v now) now h4
      have hanchor : ¬ (Backend.update_usage
          (some (Backend.hourlyRollover v now)) now).hour_start < hourStart now := by
        rw [hupd]
        exact hourlyRollover_hour_anchor v now
      have hfix := hourlyRollover_id
        (Backend.update_usage (some (Backend.hourlyRollover v now)) now) now hanchor
      have hrec := ih (Backend.update_usage (some (Backend.hourlyRollover v now)) now)
        (j + 1)
        (by
          rw [hfix, hupd]
          show (Backend.hourlyRollover v now).trips_this_hour + 1 = a + (j + 1)
          omega)
        (by
          rw [hfix, hupd]
          show (Backend.hourlyRollover v now).trips_today + 1 = td + (j + 1)
          omega)
        (by
          rw [hfix, hupd]
          show (Backend.hourlyRollover v now).daily_cost + 500 = dc + (j + 1) * 500
          omega)
        (by
          rw [hfix, hupd]
          intro t ht
          obtain rfl : now = t := Option.some.inj ht
          exact Nat.lt_irrefl _)
      rw [hsub]
      simp only [if_true]
      rw [hrec]
      omega

/-- C1: under asyncio's cooperative scheduling, `create_trip` performs no
`await` between the quota check (`backend/main.py` line 898) and the
usage record (line 935), and no other thread mutates `usage_tracking`, so
K concurrent submissions from the same client identity serialize into the
fold `countAdmittedFrom`.  Starting from any ledger entry with H units of
hourly headroom after the hourly rollover, enough daily and cost headroom
for those H trips, and no pending day rollover, exactly `min K H` of the
K submissions are admitted and the rest rejected; in particular, when
exactly one unit of quota remains, two concurrent submissions are never
both admitted — exactly one is. -/
theorem c1_concurrent_exact_headroom (u : Backend.Usage) (now : Nat)
    (hnoday : ∀ t, u.last_trip_time = some t → ¬ dateOf t < dateOf now)
    (hcap : (Backend.hourlyRollover u now).trips_this_hour ≤
      Backend.MAX_TRIPS_PER_HOUR)
    (hday : u.trips_today +
      (Backend.MAX_TRIPS_PER_HOUR -
        (Backend.hourlyRollover u now).trips_this_hour) ≤
      Backend.MAX_TRIPS_PER_DAY)
    (hcost : u.daily_cost +
      (Backend.MAX_TRIPS_PER_HOUR -
        (Backend.hourlyRollover u now).trips_this_hour) *
        Backend.ESTIMATED_COST_PER_TRIP ≤ Backend.DAILY_COST_CAP_USD) :
    (∀ K, Backend.countAdmittedFrom (some u) (List.replicate K now) =
      min K (Backend.MAX_TRIPS_PER_HOUR -
        (Backend.hourlyRollover u now).trips_this_hour))
    ∧ (Backend.MAX_TRIPS_PER_HOUR -
        (Backend.hourlyRollover u now).trips_this_hour = 1 →
      Backend.countAdmittedFrom (some u) (List.replicate 2 now) = 1) := by
  have hmain : ∀ K, Backend.countAdmittedFrom (some u) (List.replicate K now) =
      min K (Backend.MAX_TRIPS_PER_HOUR -
        (Backend.hourlyRollover u now).trips_this_hour) := by
    intro K
    have h := c1_fold_aux now ((Backend.hourlyRollover u now).trips_this_hour)
      u.trips_today u.daily_cost hcap hday hcost K u 0
      (by omega)
      (by rw [hourlyRollover_trips_today]; omega)
      (by rw [hourlyRollover_daily_cost]; omega)
      (fun t ht => hnoday t (by rwa [hourlyRollover_last_trip_time] at ht))
    simpa using h
  refine ⟨hmain, fun h1 => ?_⟩
  rw [hmain 2, h1]
  omega

/-- Witness for `c1_concurrent_exact_headroom`: a client with 9 of 10
hourly trips already recorded in the current hour (one unit of headroom
left) fires two concurrent submissions; exactly one is admitted. -/
theorem c1_concurrent_exact_headroom_witness :
    Backend.countAdmittedFrom
      (some { trips_today := 3, trips_this_hour := 9, daily_cost := 1500,
              last_trip_time := some 30, hour_start := 0 })
      (List.replicate 2 45) = 1 :=
  (c1_concurrent_exact_headroom
    { trips_today := 3, trips_this_hour := 9, daily_cost := 1500,
      last_trip_time := some 30, hour_start := 0 } 45
    (by
      intro t ht
      obtain rfl : 30 = t := Option.some.inj ht
      decide)
    (by decide) (by decide) (by decide)).2 (by decide)

end TripPlanner
